import Mathlib

/-!
Shallow embedding of the authentication and session-management subsystem of
the deployment-agent repository, translated from `src/auth/users.go`,
`src/handlers/auth.go` and `src/middleware/auth.go`, together with theorems
settling the specification claims about it.

Times and durations are modelled as `Int` (Unix seconds / seconds), JWTs as a
symbolic inductive type carrying their signing key and claim set, and the Go
`map[string]*Session` session store as an association list whose insert
overwrites the key, mirroring map-assignment semantics.
-/

namespace DeployAgent

/-- Symbolic model of `bcrypt.GenerateFromPassword`: `bcryptHash p` stands for
the (deterministic, for the model) hash generated from password `p`. -/
def bcryptHash (password : String) : String :=
  "$2a$10$" ++ password

/-- Symbolic model of `bcrypt.CompareHashAndPassword`: succeeds exactly when
the stored hash was generated from the presented password. -/
def bcryptCheck (hash password : String) : Bool :=
  decide (hash = bcryptHash password)

/-- From `src/auth/users.go`: `User` represents a user account. -/
structure User where
  username : String
  passwordHash : String
deriving DecidableEq, Repr

/-- JWT claim set, covering the claims written by `GenerateAccessToken`
(`username`, `exp`, `iat`) and `GenerateRefreshToken` (additionally
`token_id`).  `username` and `tokenId` are optional because a decoded foreign
token may lack them (`token.Get` can fail in the Go code). -/
structure Claims where
  username : Option String
  tokenId : Option String
  exp : Int
  iat : Int
deriving DecidableEq, Repr

/-- Symbolic model of a JWT string: either a well-formed token signed with a
given key and carrying a claim set, or an arbitrary malformed string. -/
inductive Token where
  | signed (key : String) (claims : Claims)
  | malformed (raw : String)
deriving DecidableEq, Repr

/-- Model of `jwtauth` decode-and-validate (`RefreshTokenAuth.Decode`,
`jwtauth.VerifyToken`): the library (lestrrat-go/jwx, per RFC 7519 §4.1.4)
accepts a token iff its signature verifies under the expected key and the
current time is strictly before the `exp` claim. -/
def decodeToken (key : String) (now : Int) : Token → Option Claims
  | Token.signed k c => if k = key ∧ now < c.exp then some c else none
  | Token.malformed _ => none

/-- From `src/auth/users.go`: `Session` represents an active user session. -/
structure Session where
  username : String
  refreshTokenHash : Token
  createdAt : Int
  lastUsedAt : Int
  userAgent : String
deriving DecidableEq, Repr

/-- The session store contents: `map[string]*Session` keyed by
`hashToken(refreshToken)`, modelled as an association list with distinct keys
maintained by overwriting insert. -/
abbrev Registry := List (Token × Session)

/-- From `src/auth/users.go` (`hashToken`): "creates a hash of the token for
storage" — but the body returns the token itself ("For simplicity, using the
token itself as key"). -/
def hashToken (token : Token) : Token :=
  token

/-- Go map read `sessions[tokenHash]`. -/
def storeLookup (k : Token) (r : Registry) : Option Session :=
  (r.find? (fun p => decide (p.1 = k))).map (fun p => p.2)

/-- Go map assignment `sessions[key] = session` (overwrites any entry at the
same key). -/
def storeInsert (k : Token) (v : Session) (r : Registry) : Registry :=
  (k, v) :: r.filter (fun p => !decide (p.1 = k))

/-- From `src/auth/users.go` (`RevokeSession`): `delete(s.sessions, tokenHash)`. -/
def RevokeSession (tokenHash : Token) (r : Registry) : Registry :=
  r.filter (fun p => !decide (p.1 = tokenHash))

/-- From `src/auth/users.go` (`RevokeAllUserSessions`): deletes every entry
whose `session.Username` matches. -/
def RevokeAllUserSessions (username : String) (r : Registry) : Registry :=
  r.filter (fun p => !decide (p.2.username = username))

/-- One pass of the loop body of `cleanupExpiredSessions` in
`src/auth/users.go`: removes every session with
`now.Sub(session.CreatedAt) > RefreshTokenDuration` (here `maxAge`). -/
def sweepPass (now maxAge : Int) (r : Registry) : Registry :=
  r.filter (fun p => !decide (maxAge < now - p.2.createdAt))

/-- The configuration produced by `auth.Initialize`: the two signing keys and
the two token durations (seconds). -/
structure AuthConfig where
  accessKey : String
  refreshKey : String
  accessDuration : Int
  refreshDuration : Int
deriving DecidableEq, Repr

/-- From `src/auth/users.go` (`GenerateAccessToken`): claims `username`,
`exp = now + AccessTokenDuration`, `iat = now`, signed with the access key;
returns the token and its expiry. -/
def GenerateAccessToken (cfg : AuthConfig) (username : String) (now : Int) :
    Token × Int :=
  (Token.signed cfg.accessKey
     { username := some username, tokenId := none,
       exp := now + cfg.accessDuration, iat := now },
   now + cfg.accessDuration)

/-- From `src/auth/users.go` (`GenerateRefreshToken`): like the access token
but with a random `token_id` (passed in here as `tokenId`, since randomness is
external), `exp = now + RefreshTokenDuration`, signed with the refresh key. -/
def GenerateRefreshToken (cfg : AuthConfig) (username : String) (now : Int)
    (tokenId : String) : Token × Int :=
  (Token.signed cfg.refreshKey
     { username := some username, tokenId := some tokenId,
       exp := now + cfg.refreshDuration, iat := now },
   now + cfg.refreshDuration)

/-- From `src/auth/users.go` (`CreateSession`): generates both tokens and
stores a session keyed by `hashToken(refreshToken)`; returns
(accessToken, refreshToken, new store). -/
def CreateSession (cfg : AuthConfig) (username userAgent : String) (now : Int)
    (tokenId : String) (r : Registry) : Token × Token × Registry :=
  let accessToken := (GenerateAccessToken cfg username now).1
  let refreshToken := (GenerateRefreshToken cfg username now tokenId).1
  let session : Session :=
    { username := username, refreshTokenHash := hashToken refreshToken,
      createdAt := now, lastUsedAt := now, userAgent := userAgent }
  (accessToken, refreshToken,
   storeInsert session.refreshTokenHash session r)

/-- From `src/auth/users.go` (`RefreshSession`): validates the presented
refresh token and rotates.  Returns the call result together with the session
store after the call.  `tokenId` is the fresh random id used for the new
refresh token on success. -/
def RefreshSession (cfg : AuthConfig) (oldRefreshToken : Token)
    (userAgent : String) (now : Int) (tokenId : String) (r : Registry) :
    Except String (Token × Token) × Registry :=
  let tokenHash := hashToken oldRefreshToken
  match storeLookup tokenHash r with
  | none => (Except.error "invalid or expired refresh token", r)
  | some _ =>
    match decodeToken cfg.refreshKey now oldRefreshToken with
    | none =>
      (Except.error "invalid refresh token", RevokeSession tokenHash r)
    | some claims =>
      match claims.username with
      | none => (Except.error "invalid token claims", r)
      | some username =>
        let r1 := RevokeSession tokenHash r
        let res := CreateSession cfg username userAgent now tokenId r1
        (Except.ok (res.1, res.2.1), res.2.2)

/-- From `src/handlers/auth.go` (`Logout`): the handler reads the
`refresh_token` cookie but — as its own comment records ("sessionStore is not
exported, so we just clear cookies") — performs no revocation; the session
store is left untouched.  Only the store effect is modelled. -/
def Logout (refreshCookie : Option Token) (r : Registry) : Registry :=
  match refreshCookie with
  | some _ => r
  | none => r

/-- Outcome of the request guard in `src/middleware/auth.go`. -/
inductive GuardResult where
  | unauthorizedNoToken
  | unauthorizedInvalid
  | authorized (username : Option String)
deriving DecidableEq, Repr

/-- The full server state a request sees: the auth configuration and the
session store. -/
structure ServerState where
  cfg : AuthConfig
  registry : Registry
deriving Repr

/-- From `src/middleware/auth.go` (`Protected`): reads the `access_token`
cookie and verifies it with `AccessTokenAuth`; the session store is never
consulted.  On success the username claim (if present) is attached. -/
def guardDecision (st : ServerState) (now : Int) (accessCookie : Option Token) :
    GuardResult :=
  match accessCookie with
  | none => GuardResult.unauthorizedNoToken
  | some tok =>
    match decodeToken st.cfg.accessKey now tok with
    | none => GuardResult.unauthorizedInvalid
    | some claims => GuardResult.authorized claims.username

/-- The startup environment: each field models the named environment variable,
with `""` meaning unset (the value `os.Getenv` returns then). -/
structure Env where
  adminUsername : String
  adminPassword : String
  jwtAccessSecret : String
  jwtRefreshSecret : String
  accessTokenDuration : String
  refreshTokenDuration : String
deriving DecidableEq, Repr

/-- Model of Go `time.ParseDuration` on the subset used by the configuration:
a decimal integer followed by a unit `s`, `m` or `h`; result in seconds. -/
def parseDuration (s : String) : Option Int :=
  match s.toList.reverse with
  | [] => none
  | unit :: restRev =>
    let digits := restRev.reverse
    if digits ≠ [] ∧ digits.all Char.isDigit then
      let n : Int :=
        Int.ofNat (digits.foldl (fun acc c => acc * 10 + (c.toNat - 48)) 0)
      match unit with
      | 's' => some n
      | 'm' => some (n * 60)
      | 'h' => some (n * 3600)
      | _ => none
    else none

/-- From `src/auth/users.go` (`InitializeUsers`): requires `ADMIN_USERNAME`
and `ADMIN_PASSWORD`, enforces a minimum password length of 8 bytes, and
registers the single admin user with a bcrypt hash. -/
def InitializeUsers (env : Env) : Except String (List User) :=
  if env.adminUsername = "" then
    Except.error "ADMIN_USERNAME environment variable is required"
  else if env.adminPassword = "" then
    Except.error "ADMIN_PASSWORD environment variable is required"
  else if env.adminPassword.utf8ByteSize < 8 then
    Except.error "ADMIN_PASSWORD must be at least 8 characters long"
  else
    Except.ok [{ username := env.adminUsername,
                 passwordHash := bcryptHash env.adminPassword }]

/-- From `src/auth/users.go` (`Initialize`): missing JWT secrets fall back to
built-in defaults (only a warning is printed); duration strings default to
`"5m"` / `"168h"` and are parsed, failure to parse being the only error.
No comparison between the two durations is made. -/
def InitializeAuth (env : Env) : Except String AuthConfig :=
  let accessSecret :=
    if env.jwtAccessSecret = "" then
      "default-access-secret-change-this-in-production"
    else env.jwtAccessSecret
  let refreshSecret :=
    if env.jwtRefreshSecret = "" then
      "default-refresh-secret-change-this-in-production"
    else env.jwtRefreshSecret
  let accessDurationStr :=
    if env.accessTokenDuration = "" then "5m" else env.accessTokenDuration
  match parseDuration accessDurationStr with
  | none => Except.error "invalid ACCESS_TOKEN_DURATION"
  | some ad =>
    let refreshDurationStr :=
      if env.refreshTokenDuration = "" then "168h"
      else env.refreshTokenDuration
    match parseDuration refreshDurationStr with
    | none => Except.error "invalid REFRESH_TOKEN_DURATION"
    | some rd =>
      Except.ok { accessKey := accessSecret, refreshKey := refreshSecret,
                  accessDuration := ad, refreshDuration := rd }

/-- Process startup: `InitializeUsers` then `Initialize` (each failure aborts
startup). -/
def startup (env : Env) : Except String (List User × AuthConfig) :=
  match InitializeUsers env with
  | Except.error e => Except.error e
  | Except.ok us =>
    match InitializeAuth env with
    | Except.error e => Except.error e
    | Except.ok cfg => Except.ok (us, cfg)

/-- Whether an `Except` result is a success. -/
def exceptIsOk {α : Type} : Except String α → Bool
  | Except.ok _ => true
  | Except.error _ => false

/-- From `src/auth/users.go` (`ValidateCredentials`): looks the username up in
the user store; both the unknown-username and the wrong-password branch return
the error `"invalid credentials"`. -/
def ValidateCredentials (users : List User) (username password : String) :
    Except String Unit :=
  match users.find? (fun u => decide (u.username = username)) with
  | none => Except.error "invalid credentials"
  | some user =>
    if bcryptCheck user.passwordHash password then Except.ok ()
    else Except.error "invalid credentials"

deriving instance DecidableEq for Except

/-! ## Helper lemmas -/

theorem length_filter_add_length_filter_not {α : Type} (p : α → Bool)
    (l : List α) :
    (l.filter p).length + (l.filter (fun a => !p a)).length = l.length := by
  induction l with
  | nil => rfl
  | cons x xs ih => cases hx : p x <;> simp [List.filter_cons, hx] <;> omega

theorem validateCredentials_cases (users : List User) (username password : String) :
    ValidateCredentials users username password = Except.ok () ∨
      ValidateCredentials users username password =
        Except.error "invalid credentials" := by
  unfold ValidateCredentials
  cases users.find? (fun u => decide (u.username = username)) with
  | none => exact Or.inr rfl
  | some user =>
    by_cases h : bcryptCheck user.passwordHash password = true
    · exact Or.inl (by simp [h])
    · exact Or.inr (by simp [h])

/-! ## Concrete fixtures for witnesses and counterexamples -/

/-- Concrete configuration used in concrete runs. -/
def cfgW : AuthConfig :=
  { accessKey := "ak", refreshKey := "rk",
    accessDuration := 300, refreshDuration := 1000 }

/-- Concrete user store with the one admin account. -/
def usersW : List User :=
  [{ username := "admin", passwordHash := bcryptHash "devpass123" }]

/-- Registry right after a concrete login (`CreateSession` at time 0). -/
def regW0 : Registry :=
  (CreateSession cfgW "admin" "ua" 0 "tid1" []).2.2

/-- The raw refresh token returned by that concrete login. -/
def refreshTokW : Token :=
  (CreateSession cfgW "admin" "ua" 0 "tid1" []).2.1

/-- A session used in sweep fixtures. -/
def sessW (u : String) (created : Int) : Session :=
  { username := u, refreshTokenHash := Token.malformed u,
    createdAt := created, lastUsedAt := created, userAgent := "ua" }

/-- Sweep fixture: three sessions; at `now = 100`, `maxAge = 10` exactly one
(bob, age 50) has exceeded the maximum age. -/
def regSweepW : Registry :=
  [(Token.malformed "a", sessW "alice" 95),
   (Token.malformed "b", sessW "bob" 50),
   (Token.malformed "c", sessW "carol" 91)]

/-- A signed refresh-family token whose claims carry no username. -/
def tokNoUserW : Token :=
  Token.signed "rk" { username := none, tokenId := some "x", exp := 100, iat := 0 }

/-- A registry holding a session entry keyed by `tokNoUserW`. -/
def regNoUserW : Registry :=
  [(tokNoUserW,
    { username := "ghost", refreshTokenHash := tokNoUserW,
      createdAt := 0, lastUsedAt := 0, userAgent := "ua" })]

/-- A signed refresh-family token whose claim expiry (10) has elapsed by
time 50. -/
def tokExpiredW : Token :=
  Token.signed "rk" { username := some "admin", tokenId := some "y", exp := 10, iat := 0 }

/-- A registry holding a session entry keyed by `tokExpiredW`. -/
def regExpiredW : Registry :=
  [(tokExpiredW,
    { username := "admin", refreshTokenHash := tokExpiredW,
      createdAt := 0, lastUsedAt := 0, userAgent := "ua" })]

/-- The refresh token of alice. -/
def tokAliceW : Token :=
  Token.signed "rk" { username := some "alice", tokenId := some "a", exp := 1000, iat := 0 }

/-- The refresh token of bob. -/
def tokBobW : Token :=
  Token.signed "rk" { username := some "bob", tokenId := some "b", exp := 1000, iat := 0 }

/-- The session record of alice. -/
def sessAliceW : Session :=
  { username := "alice", refreshTokenHash := tokAliceW,
    createdAt := 0, lastUsedAt := 0, userAgent := "ua" }

/-- The session record of bob. -/
def sessBobW : Session :=
  { username := "bob", refreshTokenHash := tokBobW,
    createdAt := 0, lastUsedAt := 0, userAgent := "ua" }

/-- A registry with one session each for alice and bob. -/
def regTwoW : Registry :=
  [(tokAliceW, sessAliceW), (tokBobW, sessBobW)]

/-- The access token issued by the concrete refresh at time 1. -/
def accessW2 : Token :=
  Token.signed "ak" { username := some "admin", tokenId := none, exp := 301, iat := 1 }

/-- The rotated refresh token issued by the concrete refresh at time 1. -/
def refreshW2 : Token :=
  Token.signed "rk" { username := some "admin", tokenId := some "tid2", exp := 1001, iat := 1 }

/-! ## Claim theorems -/

/-- C10: the accept/reject decision of the request guard depends only on the
presented access-token cookie and the access signing key, never on the session
registry: any two registry states yield the same outcome for the same request,
and an unexpired access token is still accepted after its originating session
has been revoked from the registry. -/
theorem C10_guard_independent_of_registry (cfg : AuthConfig) (r1 r2 : Registry)
    (now : Int) (cookie : Option Token) (username userAgent : String)
    (t0 : Int) (tokenId : String) (reg : Registry) :
    guardDecision ⟨cfg, r1⟩ now cookie = guardDecision ⟨cfg, r2⟩ now cookie ∧
    (now < t0 + cfg.accessDuration →
      guardDecision
        ⟨cfg, RevokeSession
                (hashToken (CreateSession cfg username userAgent t0 tokenId reg).2.1)
                (CreateSession cfg username userAgent t0 tokenId reg).2.2⟩
        now (some (CreateSession cfg username userAgent t0 tokenId reg).1) =
      GuardResult.authorized (some username)) := by
  constructor
  · rfl
  · intro h
    simp [guardDecision, CreateSession, GenerateAccessToken, decodeToken, h]

/-- C10 witness: the access token of the concrete login is accepted at time 5 under
any registry, in particular after its own session has been revoked. -/
theorem C10_guard_independent_of_registry_witness :
    guardDecision ⟨cfgW, []⟩ 5
        (some (CreateSession cfgW "admin" "ua" 0 "tid1" []).1) =
      guardDecision ⟨cfgW, regW0⟩ 5
        (some (CreateSession cfgW "admin" "ua" 0 "tid1" []).1) ∧
    guardDecision
        ⟨cfgW, RevokeSession
                 (hashToken (CreateSession cfgW "admin" "ua" 0 "tid1" []).2.1)
                 (CreateSession cfgW "admin" "ua" 0 "tid1" []).2.2⟩
        5 (some (CreateSession cfgW "admin" "ua" 0 "tid1" []).1) =
      GuardResult.authorized (some "admin") := by
  have h := C10_guard_independent_of_registry cfgW [] regW0 5
    (some (CreateSession cfgW "admin" "ua" 0 "tid1" []).1) "admin" "ua" 0 "tid1" []
  exact ⟨h.1, h.2 (by decide)⟩

/-- C7: one sweep pass over a registry of N sessions of which exactly K have
age exceeding the maximum age removes exactly those K (the result has length
N − K) and leaves the other sessions present and unchanged (an entry is in the
swept registry iff it was present before with age at most maxAge). -/
theorem C7_sweep_removes_exactly_expired (now maxAge : Int) (reg : Registry) :
    (sweepPass now maxAge reg).length =
      reg.length -
        (reg.filter (fun p => decide (maxAge < now - p.2.createdAt))).length ∧
    ∀ e : Token × Session,
      e ∈ sweepPass now maxAge reg ↔
        (e ∈ reg ∧ now - e.2.createdAt ≤ maxAge) := by
  constructor
  · have h := length_filter_add_length_filter_not
      (fun p : Token × Session => decide (maxAge < now - p.2.createdAt)) reg
    simp only [sweepPass]
    omega
  · intro e
    simp [sweepPass, List.mem_filter, not_lt]

/-- C7 witness: sweeping the three-session fixture at time 100 with max age 10
leaves exactly 3 − 1 sessions. -/
theorem C7_sweep_removes_exactly_expired_witness :
    (sweepPass 100 10 regSweepW).length =
      regSweepW.length -
        (regSweepW.filter (fun p => decide ((10:Int) < 100 - p.2.createdAt))).length ∧
    ((Token.malformed "b", sessW "bob" 50) ∈ sweepPass 100 10 regSweepW ↔
      ((Token.malformed "b", sessW "bob" 50) ∈ regSweepW ∧
        (100:Int) - (sessW "bob" 50).createdAt ≤ 10)) := by
  have h := C7_sweep_removes_exactly_expired 100 10 regSweepW
  exact ⟨h.1, h.2 (Token.malformed "b", sessW "bob" 50)⟩

/-- C6: credential validation fails with one identical error value for every
invalid (username, password) pair, whether the username is unknown or the
password is wrong: any two failing runs return the same error, namely
`"invalid credentials"`. -/
theorem C6_login_failure_indistinguishable (users : List User)
    (u1 p1 u2 p2 : String)
    (h1 : ValidateCredentials users u1 p1 ≠ Except.ok ())
    (h2 : ValidateCredentials users u2 p2 ≠ Except.ok ()) :
    ValidateCredentials users u1 p1 = ValidateCredentials users u2 p2 ∧
    ValidateCredentials users u1 p1 = Except.error "invalid credentials" := by
  rcases validateCredentials_cases users u1 p1 with hc1 | hc1
  · exact absurd hc1 h1
  · rcases validateCredentials_cases users u2 p2 with hc2 | hc2
    · exact absurd hc2 h2
    · exact ⟨hc1.trans hc2.symm, hc1⟩

/-- C6 witness: an unknown-username failure and a wrong-password failure for
the concrete user store produce the same error value. -/
theorem C6_login_failure_indistinguishable_witness :
    ValidateCredentials usersW "nobody" "x" ≠ Except.ok () ∧
    ValidateCredentials usersW "admin" "wrong" ≠ Except.ok () ∧
    ValidateCredentials usersW "nobody" "x" =
      ValidateCredentials usersW "admin" "wrong" :=
  ⟨by decide, by decide,
   (C6_login_failure_indistinguishable usersW "nobody" "x" "admin" "wrong"
     (by decide) (by decide)).1⟩

/-- C8: an issued access token with expiry `expiresAt` is accepted by the
request guard at every verification time `now < expiresAt` and rejected at
every `now ≥ expiresAt` (in particular at exact equality): validity is the
strict inequality `now < expiresAt`. -/
theorem C8_access_token_expiry_strict (cfg : AuthConfig) (username : String)
    (reg : Registry) (t0 now : Int) :
    (now < (GenerateAccessToken cfg username t0).2 →
      guardDecision ⟨cfg, reg⟩ now
          (some (GenerateAccessToken cfg username t0).1) =
        GuardResult.authorized (some username)) ∧
    ((GenerateAccessToken cfg username t0).2 ≤ now →
      guardDecision ⟨cfg, reg⟩ now
          (some (GenerateAccessToken cfg username t0).1) =
        GuardResult.unauthorizedInvalid) := by
  constructor
  · intro h
    simp only [GenerateAccessToken] at h
    simp [guardDecision, GenerateAccessToken, decodeToken, h]
  · intro h
    simp only [GenerateAccessToken] at h
    have hn : ¬ now < t0 + cfg.accessDuration := not_lt.mpr h
    simp [guardDecision, GenerateAccessToken, decodeToken, hn]

/-- C8 witness: the concrete access token issued at time 0 with duration 300
is accepted at time 299 and rejected at the exact expiry time 300. -/
theorem C8_access_token_expiry_strict_witness :
    guardDecision ⟨cfgW, []⟩ 299
        (some (GenerateAccessToken cfgW "admin" 0).1) =
      GuardResult.authorized (some "admin") ∧
    guardDecision ⟨cfgW, []⟩ 300
        (some (GenerateAccessToken cfgW "admin" 0).1) =
      GuardResult.unauthorizedInvalid :=
  ⟨(C8_access_token_expiry_strict cfgW "admin" [] 0 299).1 (by decide),
   (C8_access_token_expiry_strict cfgW "admin" [] 0 300).2 (by decide)⟩

/-- C3 (refuting the claimed invariant, at a concrete login): `hashToken` is
the identity function, so after `CreateSession` the registry key and the
stored `RefreshTokenHash` field are the raw signed refresh token itself, not a
non-reversible opaque identifier derived from it. -/
theorem C3_registry_key_is_raw_token :
    hashToken refreshTokW = refreshTokW ∧
    (CreateSession cfgW "admin" "ua" 0 "tid1" []).2.2 =
      [(refreshTokW,
        { username := "admin", refreshTokenHash := refreshTokW,
          createdAt := 0, lastUsedAt := 0, userAgent := "ua" })] :=
  ⟨rfl, rfl⟩

/-- C1 (refuting the claimed revocation, at a concrete run): the Logout
handler leaves the session store untouched even when a refresh-token cookie is
presented, and a subsequent Refresh with that very token still succeeds and
issues a new token pair instead of failing with session-not-found. -/
theorem C1_logout_does_not_revoke :
    Logout (some refreshTokW) regW0 = regW0 ∧
    ∃ pair,
      (RefreshSession cfgW refreshTokW "ua" 1 "tid2"
          (Logout (some refreshTokW) regW0)).1 = Except.ok pair :=
  ⟨rfl, ⟨_, rfl⟩⟩

/-- Startup environment refuting C2: the admin identity is configured, both
JWT signing secrets are absent, and the access-token duration (10h = 36000s)
exceeds the refresh-token duration (5m = 300s). -/
def envBadW : Env :=
  { adminUsername := "admin", adminPassword := "devpass123",
    jwtAccessSecret := "", jwtRefreshSecret := "",
    accessTokenDuration := "10h", refreshTokenDuration := "5m" }

/-- C2 counterexample: with both signing secrets absent and access duration
greater than refresh duration, startup nevertheless succeeds (the secrets fall
back to built-in defaults and no duration-ordering check is performed). -/
theorem C2_startup_accepts_bad_config :
    envBadW.jwtAccessSecret = "" ∧ envBadW.jwtRefreshSecret = "" ∧
    startup envBadW =
      Except.ok
        ([{ username := "admin", passwordHash := bcryptHash "devpass123" }],
         { accessKey := "default-access-secret-change-this-in-production",
           refreshKey := "default-refresh-secret-change-this-in-production",
           accessDuration := 36000, refreshDuration := 300 }) ∧
    (300:Int) ≤ 36000 :=
  ⟨rfl, rfl, rfl, by decide⟩

/-- C2 amended: startup returns an error exactly when the admin username or
password is absent, the password is shorter than 8 bytes, or a configured
token duration string fails to parse; absent JWT signing secrets fall back to
built-in defaults, and no access-versus-refresh duration ordering is
enforced. -/
theorem C2_startup_error_characterization (env : Env) :
    exceptIsOk (startup env) = true ↔
      (env.adminUsername ≠ "" ∧ env.adminPassword ≠ "" ∧
       8 ≤ env.adminPassword.utf8ByteSize ∧
       (parseDuration (if env.accessTokenDuration = "" then "5m"
          else env.accessTokenDuration)).isSome = true ∧
       (parseDuration (if env.refreshTokenDuration = "" then "168h"
          else env.refreshTokenDuration)).isSome = true) := by
  by_cases h1 : env.adminUsername = ""
  · simp [startup, InitializeUsers, exceptIsOk, h1]
  · by_cases h2 : env.adminPassword = ""
    · simp [startup, InitializeUsers, exceptIsOk, h1, h2]
    · by_cases h3 : env.adminPassword.utf8ByteSize < 8
      · simp only [startup, InitializeUsers, if_neg h1, if_neg h2, if_pos h3,
          exceptIsOk]
        simp [h1, h2]
        omega
      · cases hpa : parseDuration
            (if env.accessTokenDuration = "" then "5m"
             else env.accessTokenDuration) with
        | none =>
          simp [startup, InitializeUsers, InitializeAuth, exceptIsOk,
            h1, h2, h3, hpa]
        | some ad =>
          cases hpb : parseDuration
              (if env.refreshTokenDuration = "" then "168h"
               else env.refreshTokenDuration) with
          | none =>
            simp [startup, InitializeUsers, InitializeAuth, exceptIsOk,
              h1, h2, h3, hpa, hpb]
          | some rd =>
            simp [startup, InitializeUsers, InitializeAuth, exceptIsOk,
              h1, h2, h3, hpa, hpb]
            omega

/-! ## Lookup lemmas for the session store -/

theorem storeLookup_filter_none (k : Token) (r : Registry)
    (q : Token × Session → Bool)
    (h : ∀ p ∈ r, q p = true → p.1 ≠ k) :
    storeLookup k (r.filter q) = none := by
  unfold storeLookup
  rw [List.find?_eq_none.mpr]
  · rfl
  · intro x hx
    rcases List.mem_filter.mp hx with ⟨hxr, hq⟩
    simp [h x hxr hq]

theorem storeLookup_revoke_self (k : Token) (r : Registry) :
    storeLookup k (RevokeSession k r) = none := by
  apply storeLookup_filter_none
  intro p _ hq
  simpa using hq

theorem storeLookup_insert_revoked (kOld kNew : Token) (v : Session)
    (r : Registry) (h : kNew ≠ kOld) :
    storeLookup kOld (storeInsert kNew v (RevokeSession kOld r)) = none := by
  unfold storeLookup storeInsert RevokeSession
  rw [List.find?_cons_of_neg]
  · rw [List.find?_eq_none.mpr]
    · rfl
    · intro x hx
      have hx2 := (List.mem_filter.mp (List.mem_filter.mp hx).1).2
      simpa using hx2
  · simp [h]

/-- C5 (refuting the unusable-claims case, at a concrete input): a Refresh
whose presented token has a matching registry entry and whose raw token
decodes successfully but carries no username claim fails with an error while
leaving the session store unchanged — the matching session is not revoked. -/
theorem C5_bad_claims_not_revoked :
    (storeLookup (hashToken tokNoUserW) regNoUserW).isSome = true ∧
    (decodeToken cfgW.refreshKey 50 tokNoUserW).isSome = true ∧
    RefreshSession cfgW tokNoUserW "ua" 50 "tid" regNoUserW =
      (Except.error "invalid token claims", regNoUserW) :=
  ⟨rfl, rfl, rfl⟩

/-- C5 amended: when the presented token has a matching registry entry and the
raw token fails decode-time cryptographic verification (bad signature, expired
or malformed), the matching session is revoked from the store before the call
returns its error; when decoding succeeds but the claims lack a username, the
call fails without revoking. -/
theorem C5_revoke_on_decode_failure (cfg : AuthConfig) (tok : Token)
    (userAgent : String) (now : Int) (tokenId : String) (reg : Registry)
    (hmem : (storeLookup (hashToken tok) reg).isSome = true)
    (hdec : decodeToken cfg.refreshKey now tok = none) :
    RefreshSession cfg tok userAgent now tokenId reg =
      (Except.error "invalid refresh token",
       RevokeSession (hashToken tok) reg) ∧
    storeLookup (hashToken tok) (RevokeSession (hashToken tok) reg) = none := by
  constructor
  · cases hl : storeLookup (hashToken tok) reg with
    | none => rw [hl] at hmem; simp at hmem
    | some s => simp [RefreshSession, hl, hdec]
  · exact storeLookup_revoke_self _ _

/-- C5 witness: a session entry for an expired token; at time 50 decoding
fails and the refresh call revokes the session and errors. -/
theorem C5_revoke_on_decode_failure_witness :
    (storeLookup (hashToken tokExpiredW) regExpiredW).isSome = true ∧
    decodeToken cfgW.refreshKey 50 tokExpiredW = none ∧
    RefreshSession cfgW tokExpiredW "ua" 50 "tid" regExpiredW =
      (Except.error "invalid refresh token",
       RevokeSession (hashToken tokExpiredW) regExpiredW) :=
  ⟨by decide, by decide,
   (C5_revoke_on_decode_failure cfgW tokExpiredW "ua" 50 "tid" regExpiredW
     (by decide) (by decide)).1⟩

/-- C9: RevokeAllUserSessions deletes exactly the sessions owned by the given
identity (an entry survives iff it was present and owned by someone else,
unchanged), and afterwards any Refresh presenting a token all of whose
registry entries were owned by that identity fails. -/
theorem C9_revoke_all_frame_and_blocks_refresh (u : String) (reg : Registry) :
    (∀ e : Token × Session,
      e ∈ RevokeAllUserSessions u reg ↔ (e ∈ reg ∧ e.2.username ≠ u)) ∧
    (∀ (cfg : AuthConfig) (tok : Token) (userAgent : String) (now : Int)
        (tokenId : String),
      (∀ p : Token × Session, p ∈ reg → p.1 = hashToken tok →
        p.2.username = u) →
      (RefreshSession cfg tok userAgent now tokenId
          (RevokeAllUserSessions u reg)).1 =
        Except.error "invalid or expired refresh token") := by
  constructor
  · intro e
    simp [RevokeAllUserSessions, List.mem_filter]
  · intro cfg tok userAgent now tokenId h
    have hnone :
        storeLookup (hashToken tok) (RevokeAllUserSessions u reg) = none := by
      apply storeLookup_filter_none
      intro p hp hq hk
      have hu := h p hp hk
      simp [hu] at hq
    simp [RefreshSession, hnone]

/-- C9 witness: revoking all sessions of alice in a two-user registry keeps
the entry of bob, removes that of alice, and a refresh with the alice token
then fails. -/
theorem C9_revoke_all_frame_and_blocks_refresh_witness :
    ((tokBobW, sessBobW) ∈ RevokeAllUserSessions "alice" regTwoW ↔
      ((tokBobW, sessBobW) ∈ regTwoW ∧ sessBobW.username ≠ "alice")) ∧
    (RefreshSession cfgW tokAliceW "ua" 5 "tid"
        (RevokeAllUserSessions "alice" regTwoW)).1 =
      Except.error "invalid or expired refresh token" := by
  have h := C9_revoke_all_frame_and_blocks_refresh "alice" regTwoW
  exact ⟨h.1 (tokBobW, sessBobW),
         h.2 cfgW tokAliceW "ua" 5 "tid" (by decide)⟩

/-- C4: once Refresh succeeds on a refresh token, re-presenting the same token
to Refresh against the resulting store fails with the session-not-found error
and issues no tokens — for every such token, in particular one whose signature
still verifies and whose claim expiry has not elapsed.  The freshness
hypothesis `rt ≠ oldTok` records that the newly generated refresh token (with
its fresh random token id) differs from the old one. -/
theorem C4_rotation_blocks_replay (cfg : AuthConfig) (oldTok a rt : Token)
    (userAgent userAgent2 : String) (now now2 : Int)
    (tokenId tokenId2 : String) (reg reg2 : Registry)
    (hok : RefreshSession cfg oldTok userAgent now tokenId reg =
      (Except.ok (a, rt), reg2))
    (hfresh : rt ≠ oldTok) :
    (RefreshSession cfg oldTok userAgent2 now2 tokenId2 reg2).1 =
      Except.error "invalid or expired refresh token" := by
  simp only [RefreshSession] at hok
  cases hl : storeLookup (hashToken oldTok) reg with
  | none => simp [hl] at hok
  | some s =>
    simp only [hl] at hok
    cases hd : decodeToken cfg.refreshKey now oldTok with
    | none => simp [hd] at hok
    | some claims =>
      simp only [hd] at hok
      cases hu : claims.username with
      | none => simp [hu] at hok
      | some un =>
        simp only [hu, CreateSession, Prod.mk.injEq, Except.ok.injEq] at hok
        obtain ⟨⟨-, hrt⟩, hreg2⟩ := hok
        have hnone : storeLookup (hashToken oldTok) reg2 = none := by
          rw [← hreg2]
          apply storeLookup_insert_revoked
          simpa [hashToken, hrt] using hfresh
        simp [RefreshSession, hnone]

/-- C4 witness: a concrete login at time 0 is refreshed at time 1 (signature
valid, expiry 1000 not elapsed); replaying the original refresh token at time
2 fails with the session-not-found error. -/
theorem C4_rotation_blocks_replay_witness :
    (RefreshSession cfgW refreshTokW "ua" 2 "tid3"
        (RefreshSession cfgW refreshTokW "ua" 1 "tid2" regW0).2).1 =
      Except.error "invalid or expired refresh token" :=
  C4_rotation_blocks_replay cfgW refreshTokW accessW2 refreshW2 "ua" "ua" 1 2
    "tid2" "tid3" regW0 (RefreshSession cfgW refreshTokW "ua" 1 "tid2" regW0).2
    rfl (by decide)

end DeployAgent
